import Mathlib

/-!
Verification development for the AzureOfferCreation repository
(src/offer_creation.py).

The Python program bulk-creates marketplace "private offer" resources:
a `TokenManager` caches an OAuth bearer token, an `OfferCreator` builds a
fixed JSON payload per offer index and posts it with a bounded retry loop,
and `main` validates environment configuration and fans the jobs out with
`asyncio.gather`.

The embedding below translates that code shallowly:
- machine state is explicit (`TMState` for the two mutable `TokenManager`
  fields),
- the network is an environment supplying one `TokenResponse` per refresh
  and one `PostOutcome` per creation attempt,
- Python exceptions are `Except String` values; a `try/except` block is a
  `match` on that value,
- cooperative `asyncio` interleaving of `get_token` callers is a small-step
  system (`stepTask`) whose suspension point is the awaited token POST,
- observable behaviour (network calls, log lines, sleeps) is an event trace.
-/

/-- Mutable state of `TokenManager` (`self.access_token`,
`self.token_expires_at`).  `access_token` starts as `None` and
`token_expires_at` as `0`. -/
structure TMState where
  access_token : Option String
  token_expires_at : ℤ
deriving DecidableEq

/-- The initial `TokenManager` state set by `__init__`. -/
def initTM : TMState := ⟨none, 0⟩

/-- Body of a token-endpoint response as seen by `get_token` after
`await response.json()`: `none` means the body failed to decode as JSON at
all; otherwise each field is `some` when present and (for `expires_in`)
convertible by `int(...)`. -/
structure TokenJson where
  access_token : Option String
  expires_in : Option ℤ
deriving DecidableEq

/-- A token-endpoint HTTP response: status code, decoded JSON body (if
decodable) and raw text (used in the error message). -/
structure TokenResponse where
  status : ℕ
  json : Option TokenJson
  text : String
deriving DecidableEq

/-- The cache-validity test of `get_token` line 21:
`if self.access_token and time.time() < self.token_expires_at - 300`.
Python string truthiness makes the empty string falsy. -/
def tokenValid (st : TMState) (now : ℤ) : Bool :=
  match st.access_token with
  | none => false
  | some s => (s != "") && decide (now < st.token_expires_at - 300)

/-- Response-processing part of `get_token` (lines 34-42): run only when the
cache check failed, after the awaited POST to the token endpoint.  On a 200
response the code assigns `self.access_token` first and only then computes
and assigns `self.token_expires_at`; a `KeyError`/`ValueError` raised while
evaluating the `expires_in` conversion therefore leaves the first
assignment in place.  Any raised error is logged and re-raised, i.e.
propagates to the caller as `Except.error`. -/
def tokenRespond (st : TMState) (now : ℤ) (resp : TokenResponse) :
    TMState × Except String String :=
  if resp.status = 200 then
    match resp.json with
    | none => (st, Except.error "malformed response body")
    | some j =>
      match j.access_token with
      | none => (st, Except.error "KeyError: access_token")
      | some tok =>
        let st1 : TMState := { st with access_token := some tok }
        match j.expires_in with
        | none => (st1, Except.error "invalid expires_in")
        | some e => ({ st1 with token_expires_at := now + e }, Except.ok tok)
  else
    (st, Except.error ("Failed to get token. Status: " ++ toString resp.status ++
      ", Error: " ++ resp.text))

/-- Result of one `get_token` call: final `TokenManager` state, how many
token-endpoint POSTs were issued (0 on a cache hit, 1 otherwise), and the
returned token or raised error. -/
structure GetTokenResult where
  st : TMState
  networkCalls : ℕ
  result : Except String String

/-- `TokenManager.get_token` (lines 20-45) as run by a single caller to
completion: return the cached token if it is still valid, otherwise POST to
the token endpoint once and process the response via `tokenRespond`. -/
def get_token (st : TMState) (now : ℤ) (resp : TokenResponse) : GetTokenResult :=
  if tokenValid st now then
    ⟨st, 0, Except.ok (st.access_token.getD "")⟩
  else
    let pr := tokenRespond st now resp
    ⟨pr.1, 1, pr.2⟩

/-- A JSON document, as built literally by `get_offer_payload`. -/
inductive Json where
  | str (s : String)
  | num (q : ℚ)
  | bool (b : Bool)
  | arr (xs : List Json)
  | obj (kvs : List (String × Json))

/-- The offer name derived in `create_offer` line 152:
`f"dynamic_offer_1000_workers_{offer_number}"`. -/
def offerName (offer_number : ℕ) : String :=
  "dynamic_offer_1000_workers_" ++ toString offer_number

/-- `OfferCreator.get_offer_payload` (lines 52-149): the literal request
document; the only inputs are the offer name (top level `name` field and the
derived `plan_...` new-plan name). -/
def get_offer_payload (offer_name : String) : Json :=
  Json.obj [
    ("$schema", Json.str "https://schema.mp.microsoft.com/schema/configure/2022-07-01"),
    ("resources", Json.arr [
      Json.obj [
        ("$schema", Json.str "https://schema.mp.microsoft.com/schema/price-and-availability-private-offer-plan/2023-07-15"),
        ("product", Json.str "product/d414cbcc-a721-4b58-bdaa-145e05e87fa7"),
        ("resourceName", Json.str "newSaaSPlanAbsolutePricing"),
        ("plan", Json.str "plan/d414cbcc-a721-4b58-bdaa-145e05e87fa7/1bed11cb-98e3-4429-942f-2561eb6e212c"),
        ("offerPricingType", Json.str "saasNewCustomizedPlans"),
        ("pricing", Json.obj [
          ("recurrentPrice", Json.obj [
            ("recurrentPriceMode", Json.str "flatRate"),
            ("priceInputOption", Json.str "usd"),
            ("prices", Json.arr [
              Json.obj [
                ("billingTerm", Json.obj [("type", Json.str "month"), ("value", Json.num 1)]),
                ("paymentOption", Json.obj [("type", Json.str "month"), ("value", Json.num 1)]),
                ("pricePerPaymentInUsd", Json.num 10)],
              Json.obj [
                ("billingTerm", Json.obj [("type", Json.str "year"), ("value", Json.num 1)]),
                ("paymentOption", Json.obj [("type", Json.str "month"), ("value", Json.num 1)]),
                ("pricePerPaymentInUsd", Json.num 10)]])]),
          ("customMeters", Json.obj [
            ("priceInputOption", Json.str "usd"),
            ("meters", Json.obj [
              ("xyx", Json.obj [
                ("includedQuantities", Json.arr [
                  Json.obj [
                    ("billingTerm", Json.obj [("type", Json.str "month"), ("value", Json.num 1)]),
                    ("isInfinite", Json.bool false),
                    ("quantity", Json.num 10)],
                  Json.obj [
                    ("billingTerm", Json.obj [("type", Json.str "year"), ("value", Json.num 1)]),
                    ("isInfinite", Json.bool true)]]),
                ("pricePerPaymentInUsd", Json.num 10)]),
              ("ws43", Json.obj [
                ("includedQuantities", Json.arr [
                  Json.obj [
                    ("billingTerm", Json.obj [("type", Json.str "month"), ("value", Json.num 1)]),
                    ("isInfinite", Json.bool false),
                    ("quantity", Json.num 4)],
                  Json.obj [
                    ("billingTerm", Json.obj [("type", Json.str "year"), ("value", Json.num 1)]),
                    ("isInfinite", Json.bool false),
                    ("quantity", Json.num 4)]]),
                ("pricePerPaymentInUsd", Json.num 10)])])])])],
      Json.obj [
        ("$schema", Json.str "https://schema.mp.microsoft.com/schema/private-offer/2023-07-15"),
        ("name", Json.str offer_name),
        ("state", Json.str "draft"),
        ("privateOfferType", Json.str "customerPromotion"),
        ("offerPricingType", Json.str "saasNewCustomizedPlans"),
        ("variableStartDate", Json.bool true),
        ("end", Json.str "2024-06-28"),
        ("acceptBy", Json.str "2024-05-28"),
        ("preparedBy", Json.str "sundaran.s@workspan.com"),
        ("termsAndConditionsDocSasUrl", Json.str "https://query.prod.cms.rt.microsoft.com/cms/api/am/binary/RE4rFOA"),
        ("notificationContacts", Json.arr [Json.str "sundaran.s@workspan.com"]),
        ("beneficiaries", Json.arr [
          Json.obj [
            ("id", Json.str "xxxxxx-2163-5eea-ae4e-d6e88627c26b:6ea018a9-da9d-4eae-8610-22b51ebe260b_2019-05-31"),
            ("description", Json.str "Top First Customer")]]),
        ("pricing", Json.arr [
          Json.obj [
            ("product", Json.str "product/d414cbcc-a721-4b58-bdaa-145e05e87fa7"),
            ("discountType", Json.str "absolute"),
            ("priceDetails", Json.obj [("resourceName", Json.str "newSaaSPlanAbsolutePricing")]),
            ("basePlan", Json.str "plan/d414cbcc-a721-4b58-bdaa-145e05e87fa7/1bed11cb-98e3-4429-942f-2561eb6e212c"),
            ("newPlanDetails", Json.obj [
              ("name", Json.str ("plan_" ++ offer_name)),
              ("description", Json.str "custom plan description")])]])]])]

/-- The externally-visible payload builder of the design: offer-name
derivation composed with `get_offer_payload`. -/
def buildPayload (offerIndex : ℕ) : Json :=
  get_offer_payload (offerName offerIndex)

/-- `get_offer_payload` as a method call on the stateful `OfferCreator`
object: the method body (lines 52-149) reads none of the object state
reachable through `self` (in particular not the mutable `TokenManager`) and
performs no writes, so the state passes through untouched. -/
def get_offer_payloadM (st : TMState) (offer_name : String) : TMState × Json :=
  (st, get_offer_payload offer_name)

/-- Outcome of one offer-configure POST as observed by `create_offer`:
either an HTTP response (status plus error text) or a raised
transport-level exception (timeout, connection failure, ...). -/
inductive PostOutcome where
  | resp (status : ℕ) (text : String)
  | exc (msg : String)
deriving DecidableEq

/-- What the outside world supplies to one loop iteration of `create_offer`:
the current wall-clock time, the token-endpoint response that a refresh
would receive, and the outcome of the offer-configure POST. -/
structure Attempt where
  now : ℤ
  tokenResp : TokenResponse
  post : PostOutcome

/-- Environment of a job: iteration number to `Attempt`. -/
abbrev Env := ℕ → Attempt

/-- Observable events of a job run: token-endpoint POSTs, offer-configure
POSTs (with the request body actually sent), log lines and backoff sleeps
(`secs` seconds). -/
inductive Ev where
  | tokenNetCall
  | postReq (name : String) (payload : Json)
  | logSuccess
  | logFailStatus (status : ℕ)
  | logExc
  | sleep (secs : ℕ)
  | logExhausted

/-- How one `create_offer` run terminates.  `attempts` counts loop
iterations (1-based).  `succeeded`: the POST returned 202 and the function
returned.  `brokeOut`: the POST returned a non-202 status without raising,
so line 185 `break` left the loop with `retry_count` unincremented and
below `max_retries`.  `exhausted`: the loop condition failed after
`max_retries` exception-handled failures. -/
inductive JobOutcome where
  | succeeded (attempts : ℕ)
  | brokeOut (attempts : ℕ) (status : ℕ)
  | exhausted
deriving DecidableEq

/-- `max_retries = 3` (line 155). -/
def maxRetries : ℕ := 3

/-- Result of the `try` block body distinguishing the two non-raising exits:
`success` for a 202 response (the `return`), `httpFail` for any other
status (falls through to `break`). -/
inductive BodyRes where
  | success
  | httpFail (status : ℕ)

/-- The `try` block body of one loop iteration (lines 159-176): fetch a
token via `get_token` (an error there propagates), then POST the payload; a
202 response returns, any other status logs and falls through, a raised
transport error propagates.  `Except.error` is what the `except` clause of
the iteration will catch. -/
def tokenEvs (networkCalls : ℕ) : List Ev :=
  if networkCalls = 0 then [] else [Ev.tokenNetCall]

def attemptBody (st : TMState) (a : Attempt) (name : String) (payload : Json) :
    TMState × List Ev × Except String BodyRes :=
  match get_token st a.now a.tokenResp with
  | ⟨st1, nc, Except.error e⟩ => (st1, tokenEvs nc, Except.error e)
  | ⟨st1, nc, Except.ok _⟩ =>
    match a.post with
    | PostOutcome.exc m => (st1, tokenEvs nc ++ [Ev.postReq name payload], Except.error m)
    | PostOutcome.resp s _ =>
      if s = 202 then
        (st1, tokenEvs nc ++ [Ev.postReq name payload, Ev.logSuccess], Except.ok BodyRes.success)
      else
        (st1, tokenEvs nc ++ [Ev.postReq name payload, Ev.logFailStatus s], Except.ok (BodyRes.httpFail s))

/-- The `while retry_count < max_retries` loop of `create_offer` (lines
158-188), plus the exhaustion report of line 187-188 at loop exit.  `r` is
`retry_count`; `fuel` bounds the remaining iterations (the loop is entered
with `fuel = maxRetries - r`, and `r` grows by one per repeat, so fuel
running out coincides with the loop condition failing).  On a caught
exception: log, increment `retry_count`, sleep `2 ** retry_count` seconds
when still below the cap, and continue.  The `Except.error` branch of the
recursive call is propagation of an exception out of the whole loop — the
containment theorem shows it is never taken. -/
def loopE (env : Env) (name : String) (payload : Json) :
    TMState → ℕ → ℕ → Except String (TMState × List Ev × JobOutcome)
  | st, r, 0 =>
    Except.ok (st, if r = maxRetries then [Ev.logExhausted] else [], JobOutcome.exhausted)
  | st, r, fuel+1 =>
    if r < maxRetries then
      match attemptBody st (env r) name payload with
      | (st', evs, Except.ok BodyRes.success) =>
        Except.ok (st', evs, JobOutcome.succeeded (r+1))
      | (st', evs, Except.ok (BodyRes.httpFail s)) =>
        Except.ok (st', evs, JobOutcome.brokeOut (r+1) s)
      | (st', evs, Except.error _) =>
        let backoff : List Ev := if r+1 < maxRetries then [Ev.sleep (2^(r+1))] else []
        match loopE env name payload st' (r+1) fuel with
        | Except.ok (st'', evs2, o) =>
          Except.ok (st'', evs ++ Ev.logExc :: backoff ++ evs2, o)
        | Except.error e2 => Except.error e2
    else
      Except.ok (st, if r = maxRetries then [Ev.logExhausted] else [], JobOutcome.exhausted)

/-- `OfferCreator.create_offer` (lines 151-188): derive the offer name and
payload once, then run the retry loop.  The result is the final
`TokenManager` state, the event trace, and the terminal outcome; an
`Except.error` would be an exception escaping to the caller
(`asyncio.gather`). -/
def createOfferE (env : Env) (offer_number : ℕ) (st : TMState) :
    Except String (TMState × List Ev × JobOutcome) :=
  let offer_name := offerName offer_number
  let payload := get_offer_payload offer_name
  loopE env offer_name payload st 0 maxRetries

/-- Terminal outcome of a run, if the run returned normally. -/
def runOutcome (r : Except String (TMState × List Ev × JobOutcome)) : Option JobOutcome :=
  match r with
  | Except.ok (_, _, o) => some o
  | Except.error _ => none

/-- Event trace of a run that returned normally. -/
def runEvents (r : Except String (TMState × List Ev × JobOutcome)) : List Ev :=
  match r with
  | Except.ok (_, evs, _) => evs
  | Except.error _ => []

/-- Event classifiers used to count observable actions in a trace. -/
def isPost : Ev → Bool
  | Ev.postReq _ _ => true
  | _ => false

def isLogSuccess : Ev → Bool
  | Ev.logSuccess => true
  | _ => false

def isLogExhausted : Ev → Bool
  | Ev.logExhausted => true
  | _ => false

def isLogExc : Ev → Bool
  | Ev.logExc => true
  | _ => false

/-- Durations of the backoff sleeps of a trace, in order. -/
def sleepSecs : Ev → Option ℕ
  | Ev.sleep k => some k
  | _ => none

def sleepsOf (evs : List Ev) : List ℕ := evs.filterMap sleepSecs

/-- The fan-out of `main` (lines 215-219) with `asyncio.gather`, modelled
with the jobs run to terminal state in index order; the shared
`TokenManager` state threads through.  `gather` re-raises an exception of
any job, which is the `Except.error` propagation here; no job is skipped
once started. -/
def runAllE (envs : ℕ → Env) :
    TMState → ℕ → ℕ → Except String (TMState × List (List Ev × JobOutcome))
  | st, _, 0 => Except.ok (st, [])
  | st, i, k+1 =>
    match createOfferE (envs i) i st with
    | Except.ok (st', evs, o) =>
      match runAllE envs st' (i+1) k with
      | Except.ok (st'', rest) => Except.ok (st'', (evs, o) :: rest)
      | Except.error e => Except.error e
    | Except.error e => Except.error e

/-- Code points Python strips as whitespace around the numeral in
`int(...)` (enumerated against CPython 3.11, which the repository targets):
ASCII whitespace, NEL, and the Unicode space separators. -/
def pyWsCodes : List ℕ :=
  [0x9, 0xA, 0xB, 0xC, 0xD, 0x20, 0x85, 0xA0, 0x1680,
   0x2000, 0x2001, 0x2002, 0x2003, 0x2004, 0x2005, 0x2006, 0x2007,
   0x2008, 0x2009, 0x200A, 0x2028, 0x2029, 0x202F, 0x205F, 0x3000]

def isPyWs (c : Char) : Bool := pyWsCodes.contains c.toNat

/-- First code point of each run of ten consecutive Unicode decimal digits
(category Nd) that `int(...)` accepts with values 0-9, enumerated against
CPython 3.11; `0x30` is ASCII `0`-`9`, `0x660` Arabic-Indic, `0xFF10`
fullwidth, and so on. -/
def pyDigitBases : List ℕ :=
  [0x30, 0x660, 0x6F0, 0x7C0, 0x966, 0x9E6, 0xA66, 0xAE6, 0xB66, 0xBE6,
   0xC66, 0xCE6, 0xD66, 0xDE6, 0xE50, 0xED0, 0xF20, 0x1040, 0x1090,
   0x17E0, 0x1810, 0x1946, 0x19D0, 0x1A80, 0x1A90, 0x1B50, 0x1BB0,
   0x1C40, 0x1C50, 0xA620, 0xA8D0, 0xA900, 0xA9D0, 0xA9F0, 0xAA50,
   0xABF0, 0xFF10, 0x104A0, 0x10D30, 0x11066, 0x110F0, 0x11136,
   0x111D0, 0x112F0, 0x11450, 0x114D0, 0x11650, 0x116C0, 0x11730,
   0x118E0, 0x11950, 0x11C50, 0x11D50, 0x11DA0, 0x16A60, 0x16AC0,
   0x16B50, 0x1D7CE, 0x1D7D8, 0x1D7E2, 0x1D7EC, 0x1D7F6, 0x1E140,
   0x1E2F0, 0x1E950, 0x1FBF0]

/-- Decimal value of a Unicode digit accepted by `int(...)`; `none` for any
other character. -/
def pyDigitVal (c : Char) : Option ℕ :=
  match pyDigitBases.find? (fun b => decide (b ≤ c.toNat ∧ c.toNat < b + 10)) with
  | some b => some (c.toNat - b)
  | none => none

/-- Digit run of `int(...)` with PEP 515 underscore grouping: after the
first digit, a single underscore may stand between two digits; leading,
trailing or doubled underscores are a `ValueError`. -/
def parsePyDigitsGo (acc : ℕ) : List Char → Option ℕ
  | [] => some acc
  | '_' :: c :: rest =>
    match pyDigitVal c with
    | some v => parsePyDigitsGo (acc * 10 + v) rest
    | none => none
  | c :: rest =>
    match pyDigitVal c with
    | some v => parsePyDigitsGo (acc * 10 + v) rest
    | none => none

def parsePyDigits : List Char → Option ℕ
  | [] => none
  | c :: rest =>
    match pyDigitVal c with
    | some v => parsePyDigitsGo v rest
    | none => none

/-- Python `int(s)` on a string (as in CPython 3.11): strip surrounding
whitespace (`isPyWs`), allow one optional ASCII sign, then a nonempty run
of Unicode decimal digits with underscore grouping; anything else raises
`ValueError` (`none`). -/
def parsePyInt (s : String) : Option ℤ :=
  match ((s.toList.dropWhile isPyWs).reverse.dropWhile isPyWs).reverse with
  | [] => none
  | c :: rest =>
    if c = '-' then (parsePyDigits rest).map (fun n => -(n : ℤ))
    else if c = '+' then (parsePyDigits rest).map (fun n => (n : ℤ))
    else (parsePyDigits (c :: rest)).map (fun n => (n : ℤ))

/-- The three environment variables read by `main` (lines 193-195); `none`
is an unset variable. -/
structure Config where
  ms_client_id : Option String
  ms_client_secret : Option String
  num_offers : Option String

/-- Python truthiness of `os.environ.get` results: unset or empty is falsy. -/
def truthyOpt : Option String → Bool
  | none => false
  | some s => s != ""

/-- Configuration validation of `main` (lines 197-206):
`if not all([client_id, client_secret, num_offers]): raise ValueError`,
then `int(num_offers)` and the positivity check, both re-raised after
logging.  Returns the validated offer count. -/
def main_validate (c : Config) : Except String ℕ :=
  if truthyOpt c.ms_client_id && truthyOpt c.ms_client_secret && truthyOpt c.num_offers then
    match c.num_offers with
    | some s =>
      match parsePyInt s with
      | none => Except.error ("Invalid NUM_OFFERS value: " ++ s)
      | some z =>
        if z ≤ 0 then Except.error "NUM_OFFERS must be a positive number"
        else Except.ok z.toNat
    | none => Except.error "Missing required environment variables."
  else Except.error "Missing required environment variables."

/-- `main` (lines 191-219): validate the configuration; only on success
create the session and fan out the jobs.  A validation failure propagates
(`asyncio.run` turns it into a process-fatal error) before any network
object exists. -/
def main_run (c : Config) (envs : ℕ → Env) (st : TMState) :
    Except String (TMState × List (List Ev × JobOutcome)) :=
  match main_validate c with
  | Except.error e => Except.error e
  | Except.ok n => runAllE envs st 0 n

/-- Progress of one cooperative `get_token` caller in the interleaved
model: `start` (not yet run), `awaitingPost` (failed the cache check,
issued its own token POST, suspended at the `await`), or `done` with the
call result. -/
inductive TaskPhase where
  | start
  | awaitingPost
  | done (res : Except String String)

/-- Shared state of `N` concurrent `get_token` callers: the single
`TokenManager` instance, the phase of each task, and how many token-endpoint
POSTs have been issued in total. -/
structure Sys where
  tm : TMState
  tasks : List TaskPhase
  netCalls : ℕ

/-- One cooperative step of task `i`, exactly the code of `get_token` split
at its `await` suspension point: from `start`, run the line-21 cache check
and either finish with the cached token or issue a POST (this is where
`asyncio` may switch to another task); from `awaitingPost`, receive this
response of this task and run lines 34-42 (`tokenRespond`) against the shared
state. -/
def stepTask (now : ℤ) (resps : List TokenResponse) (sys : Sys) (i : ℕ) : Sys :=
  match sys.tasks.get? i with
  | some TaskPhase.start =>
    if tokenValid sys.tm now then
      { sys with tasks := sys.tasks.set i (TaskPhase.done (Except.ok (sys.tm.access_token.getD ""))) }
    else
      { sys with tasks := sys.tasks.set i TaskPhase.awaitingPost,
                 netCalls := sys.netCalls + 1 }
  | some TaskPhase.awaitingPost =>
    match resps.get? i with
    | some resp =>
      let pr := tokenRespond sys.tm now resp
      { sys with tm := pr.1, tasks := sys.tasks.set i (TaskPhase.done pr.2) }
    | none => sys
  | _ => sys

/-- Run a cooperative schedule: the list gives which task runs at each
step. -/
def runSched (now : ℤ) (resps : List TokenResponse) (sys0 : Sys) (sched : List ℕ) : Sys :=
  sched.foldl (stepTask now resps) sys0

/-- A well-formed token response: 200, with a decodable body carrying the
token `"tok"` and a one-hour `expires_in`. -/
def goodResp : TokenResponse := ⟨200, some ⟨some "tok", some 3600⟩, ""⟩

/-- Job environment whose offer-configure POST always returns HTTP 500
(and whose token endpoint always works). -/
def env500 : Env := fun _ => ⟨0, goodResp, PostOutcome.resp 500 "err"⟩

/-- Job environment whose offer-configure POST always raises a transport
error. -/
def envExc : Env := fun _ => ⟨0, goodResp, PostOutcome.exc "boom"⟩

/-- Job environment: two non-202 responses, then a 202. -/
def envFailFailOk : Env := fun k =>
  ⟨0, goodResp, if k < 2 then PostOutcome.resp 500 "err" else PostOutcome.resp 202 ""⟩

/-- Job environment: two raised transport errors, then a 202. -/
def envExcExcOk : Env := fun k =>
  ⟨0, goodResp, if k < 2 then PostOutcome.exc "boom" else PostOutcome.resp 202 ""⟩

/-- Job environment that accepts (202) on the first attempt. -/
def envHit : Env := fun _ => ⟨0, goodResp, PostOutcome.resp 202 ""⟩

/-- A `TokenManager` state holding a far-future valid token. -/
def cachedTM : TMState := ⟨some "tok", 1000000⟩

/-- A 200 token response whose body has `access_token` but no usable
`expires_in`. -/
def respPartial : TokenResponse := ⟨200, some ⟨some "tok", none⟩, ""⟩

/-- Two first-time `get_token` callers, nothing cached yet. -/
def sysTwoStart : Sys := ⟨initTM, [TaskPhase.start, TaskPhase.start], 0⟩

/-- A well-formed token-endpoint response: status 200 with a decodable body
carrying both `access_token` and a convertible `expires_in`; `get_token`
returns a token (rather than raising) exactly on these whenever it
refreshes. -/
def tokenRespOk (resp : TokenResponse) : Bool :=
  (resp.status == 200) &&
    (match resp.json with
     | some j => j.access_token.isSome && j.expires_in.isSome
     | none => false)

lemma tokenEvs_zero : tokenEvs 0 = [] := rfl

lemma tokenEvs_succ (n : ℕ) : tokenEvs (n+1) = [Ev.tokenNetCall] := by
  simp [tokenEvs]

/-- Case analysis of one `try` body: whatever the environment does, the
body issues at most one offer POST, always with the given name and payload,
logs success exactly when it returns `success`, and never sleeps or logs
exhaustion. -/
lemma attemptBody_spec (st : TMState) (a : Attempt) (name : String) (payload : Json) :
    ∃ st' evs res, attemptBody st a name payload = (st', evs, res) ∧
      List.countP isPost evs ≤ 1 ∧
      (∀ nm pl, Ev.postReq nm pl ∈ evs → nm = name ∧ pl = payload) ∧
      List.countP isLogSuccess evs =
        (match res with | Except.ok BodyRes.success => 1 | _ => 0) ∧
      List.countP isLogExhausted evs = 0 ∧
      sleepsOf evs = [] := by
  unfold attemptBody
  rcases h : get_token st a.now a.tokenResp with ⟨st1, nc, res⟩
  have hnc : tokenEvs nc = [] ∨ tokenEvs nc = [Ev.tokenNetCall] := by
    cases nc
    · exact Or.inl rfl
    · exact Or.inr (by simp [tokenEvs])
  rcases res with e | tok
  · dsimp only
    refine ⟨_, _, _, rfl, ?_, ?_, ?_, ?_, ?_⟩ <;>
      rcases hnc with hnc | hnc <;> rw [hnc] <;>
      first
        | (intro nm pl hm; simp at hm; try exact hm)
        | simp [isPost, isLogSuccess, isLogExhausted, sleepsOf, sleepSecs]
  · rcases a.post with ⟨s, t⟩ | m <;> dsimp only
    · by_cases hs : s = 202
      · subst hs
        rw [if_pos rfl]
        refine ⟨_, _, _, rfl, ?_, ?_, ?_, ?_, ?_⟩ <;>
          rcases hnc with hnc | hnc <;> rw [hnc] <;>
          first
            | (intro nm pl hm; simp at hm; try exact hm)
            | simp [isPost, isLogSuccess, isLogExhausted, sleepsOf, sleepSecs,
                List.countP_cons, List.countP_append]
      · rw [if_neg hs]
        refine ⟨_, _, _, rfl, ?_, ?_, ?_, ?_, ?_⟩ <;>
          rcases hnc with hnc | hnc <;> rw [hnc] <;>
          first
            | (intro nm pl hm; simp at hm; try exact hm)
            | simp [isPost, isLogSuccess, isLogExhausted, sleepsOf, sleepSecs,
                List.countP_cons, List.countP_append]
    · refine ⟨_, _, _, rfl, ?_, ?_, ?_, ?_, ?_⟩ <;>
        rcases hnc with hnc | hnc <;> rw [hnc] <;>
        first
          | (intro nm pl hm; simp at hm; try exact hm)
          | simp [isPost, isLogSuccess, isLogExhausted, sleepsOf, sleepSecs,
              List.countP_cons, List.countP_append]

/-- Retry-loop invariant: entered with `r + fuel = maxRetries` the loop
always returns normally (no exception escapes the `except` handler),
issues at most `fuel` offer POSTs, only ever posts the fixed name and
payload, and logs each terminal outcome the way the code does: success log
exactly for `succeeded`, exhaustion log exactly for `exhausted`, neither
for a `brokeOut` exit. -/
lemma loopE_spec : ∀ (fuel : ℕ) (env : Env) (name : String) (payload : Json)
    (st : TMState) (r : ℕ), r + fuel = maxRetries →
    ∃ st' evs o, loopE env name payload st r fuel = Except.ok (st', evs, o) ∧
      List.countP isPost evs ≤ fuel ∧
      (∀ nm pl, Ev.postReq nm pl ∈ evs → nm = name ∧ pl = payload) ∧
      (∀ k, o = JobOutcome.succeeded k → r < k ∧ k ≤ maxRetries ∧
        List.countP isLogSuccess evs = 1 ∧ List.countP isLogExhausted evs = 0) ∧
      (∀ k s, o = JobOutcome.brokeOut k s → r < k ∧ k ≤ maxRetries ∧
        List.countP isLogSuccess evs = 0 ∧ List.countP isLogExhausted evs = 0) ∧
      (o = JobOutcome.exhausted →
        List.countP isLogSuccess evs = 0 ∧ List.countP isLogExhausted evs = 1) := by
  intro fuel
  induction fuel with
  | zero =>
    intro env name payload st r hr
    have hr3 : r = maxRetries := by omega
    subst hr3
    refine ⟨st, [Ev.logExhausted], JobOutcome.exhausted, by simp [loopE], ?_, ?_, ?_, ?_, ?_⟩
    · decide
    · intro nm pl hm; simp at hm
    · intro k hk; simp at hk
    · intro k s hk; simp at hk
    · intro _; exact ⟨by decide, by decide⟩
  | succ fuel ih =>
    intro env name payload st r hr
    have hrlt : r < maxRetries := by omega
    obtain ⟨stA, evsA, res, hA, hA1, hA2, hA3, hA4, hA5⟩ := attemptBody_spec st (env r) name payload
    rcases res with e | br
    · -- exception caught by the handler: recurse with retry_count + 1
      obtain ⟨st2, evs2, o, hL, hc, hmem, hsucc, hbrk, hexh⟩ :=
        ih env name payload stA (r+1) (by omega)
      have hA3z : List.countP isLogSuccess evsA = 0 := by simpa using hA3
      have hBpost : List.countP isPost (if r+1 < maxRetries then [Ev.sleep (2^(r+1))] else []) = 0 := by
        split <;> simp [isPost]
      have hBsucc : List.countP isLogSuccess (if r+1 < maxRetries then [Ev.sleep (2^(r+1))] else []) = 0 := by
        split <;> simp [isLogSuccess]
      have hBexh : List.countP isLogExhausted (if r+1 < maxRetries then [Ev.sleep (2^(r+1))] else []) = 0 := by
        split <;> simp [isLogExhausted]
      have hBmem : ∀ nm pl, Ev.postReq nm pl ∉ (if r+1 < maxRetries then [Ev.sleep (2^(r+1))] else []) := by
        intro nm pl
        split <;> simp
      have heP : isPost Ev.logExc = false := rfl
      have heS : isLogSuccess Ev.logExc = false := rfl
      have heE : isLogExhausted Ev.logExc = false := rfl
      have hstep : loopE env name payload st r (fuel+1) =
          Except.ok (st2,
            (evsA ++ Ev.logExc :: (if r+1 < maxRetries then [Ev.sleep (2^(r+1))] else [])) ++ evs2, o) := by
        simp only [loopE]
        rw [if_pos hrlt, hA]
        dsimp only
        rw [hL]
      refine ⟨st2, _, o, hstep, ?_, ?_, ?_, ?_, ?_⟩
      · simp [List.countP_append, List.countP_cons, heP, hBpost]
        omega
      · intro nm pl hm
        rcases List.mem_append.mp hm with hm1 | hm2
        · rcases List.mem_append.mp hm1 with hm3 | hm4
          · exact hA2 nm pl hm3
          · rcases List.mem_cons.mp hm4 with hm5 | hm6
            · exact absurd hm5 (by simp)
            · exact absurd hm6 (hBmem nm pl)
        · exact hmem nm pl hm2
      · intro k hk
        obtain ⟨h1, h2, h3, h4⟩ := hsucc k hk
        exact ⟨by omega, h2,
          by simp [List.countP_append, List.countP_cons, heS, hBsucc, h3, hA3z],
          by simp [List.countP_append, List.countP_cons, heE, hBexh, h4, hA4]⟩
      · intro k s hk
        obtain ⟨h1, h2, h3, h4⟩ := hbrk k s hk
        exact ⟨by omega, h2,
          by simp [List.countP_append, List.countP_cons, heS, hBsucc, h3, hA3z],
          by simp [List.countP_append, List.countP_cons, heE, hBexh, h4, hA4]⟩
      · intro hk
        obtain ⟨h3, h4⟩ := hexh hk
        exact ⟨by simp [List.countP_append, List.countP_cons, heS, hBsucc, h3, hA3z],
          by simp [List.countP_append, List.countP_cons, heE, hBexh, h4, hA4]⟩
    · rcases br with _ | s
      · -- 202: return Success
        have hstep : loopE env name payload st r (fuel+1) =
            Except.ok (stA, evsA, JobOutcome.succeeded (r+1)) := by
          simp only [loopE]
          rw [if_pos hrlt, hA]
        refine ⟨stA, evsA, JobOutcome.succeeded (r+1), hstep, by omega, hA2, ?_, ?_, ?_⟩
        · intro k hk
          have hk1 : k = r + 1 := by
            cases hk
            rfl
          subst hk1
          refine ⟨by omega, by unfold maxRetries at *; omega, ?_, hA4⟩
          simpa using hA3
        · intro k s hk; simp at hk
        · intro hk; simp at hk
      · -- non-202 status: break
        have hstep : loopE env name payload st r (fuel+1) =
            Except.ok (stA, evsA, JobOutcome.brokeOut (r+1) s) := by
          simp only [loopE]
          rw [if_pos hrlt, hA]
        refine ⟨stA, evsA, JobOutcome.brokeOut (r+1) s, hstep, by omega, hA2, ?_, ?_, ?_⟩
        · intro k hk; simp at hk
        · intro k s2 hk
          have hk1 : k = r + 1 ∧ s2 = s := by
            cases hk
            exact ⟨rfl, rfl⟩
          obtain ⟨hk1, hk2⟩ := hk1
          subst hk1
          subst hk2
          refine ⟨by omega, by unfold maxRetries at *; omega, ?_, hA4⟩
          simpa using hA3
        · intro hk; simp at hk

lemma countP_tokenEvs (p : Ev → Bool) (hp : p Ev.tokenNetCall = false) (nc : ℕ) :
    List.countP p (tokenEvs nc) = 0 := by
  unfold tokenEvs
  split <;> simp [hp]

lemma sleepsOf_tokenEvs (nc : ℕ) : sleepsOf (tokenEvs nc) = [] := by
  unfold tokenEvs sleepsOf
  split <;> simp [sleepSecs]

lemma sleepsOf_append (l1 l2 : List Ev) :
    sleepsOf (l1 ++ l2) = sleepsOf l1 ++ sleepsOf l2 := by
  simp [sleepsOf]

/-- On a well-formed response (line 35-39 path) `tokenRespond` replaces the
token value and the expiry together and returns the token. -/
lemma tokenRespond_success (st : TMState) (now : ℤ) (resp : TokenResponse)
    (j : TokenJson) (t : String) (e : ℤ)
    (h200 : resp.status = 200) (hj : resp.json = some j)
    (ht : j.access_token = some t) (he : j.expires_in = some e) :
    tokenRespond st now resp = (⟨some t, now + e⟩, Except.ok t) := by
  unfold tokenRespond
  rw [if_pos h200, hj]
  dsimp only
  rw [ht]
  dsimp only
  rw [he]

/-- When the cache check fails and the response is well-formed, `get_token`
returns a token. -/
lemma get_token_good (st : TMState) (now : ℤ) (resp : TokenResponse)
    (hg : tokenRespOk resp = true) :
    ∃ st1 nc tok, get_token st now resp = ⟨st1, nc, Except.ok tok⟩ := by
  unfold get_token
  by_cases hv : tokenValid st now
  · rw [if_pos hv]
    exact ⟨_, _, _, rfl⟩
  · rw [if_neg hv]
    unfold tokenRespOk at hg
    rcases hj : resp.json with _ | j
    · rw [hj] at hg
      simp at hg
    · rw [hj] at hg
      simp only [Bool.and_eq_true, beq_iff_eq] at hg
      obtain ⟨h200, hat, hei⟩ := hg
      obtain ⟨t, ht⟩ := Option.isSome_iff_exists.mp hat
      obtain ⟨e, he⟩ := Option.isSome_iff_exists.mp hei
      rw [tokenRespond_success st now resp j t e h200 hj ht he]
      exact ⟨_, _, _, rfl⟩

/-- A `try` body whose token fetch works and whose POST raises: exactly one
offer POST was issued and the body result is the raised error. -/
lemma attemptBody_exc (st : TMState) (a : Attempt) (name : String) (payload : Json)
    (hg : tokenRespOk a.tokenResp = true) (m : String)
    (hp : a.post = PostOutcome.exc m) :
    ∃ st' evs, attemptBody st a name payload = (st', evs, Except.error m) ∧
      List.countP isPost evs = 1 ∧ List.countP isLogExc evs = 0 ∧
      List.countP isLogSuccess evs = 0 ∧ List.countP isLogExhausted evs = 0 ∧
      sleepsOf evs = [] := by
  obtain ⟨st1, nc, tok, hgt⟩ := get_token_good st a.now a.tokenResp hg
  refine ⟨st1, tokenEvs nc ++ [Ev.postReq name payload], ?_, ?_, ?_, ?_, ?_, ?_⟩
  · unfold attemptBody
    rw [hgt]
    dsimp only
    rw [hp]
  · simp [List.countP_append, countP_tokenEvs isPost rfl, isPost]
  · simp [List.countP_append, countP_tokenEvs isLogExc rfl, isLogExc]
  · simp [List.countP_append, countP_tokenEvs isLogSuccess rfl, isLogSuccess]
  · simp [List.countP_append, countP_tokenEvs isLogExhausted rfl, isLogExhausted]
  · rw [sleepsOf_append, sleepsOf_tokenEvs]
    rfl

/-- A `try` body whose token fetch works and whose POST is accepted (202):
one offer POST, a success log, and the `return Success` result. -/
lemma attemptBody_202 (st : TMState) (a : Attempt) (name : String) (payload : Json)
    (hg : tokenRespOk a.tokenResp = true) (t : String)
    (hp : a.post = PostOutcome.resp 202 t) :
    ∃ st' evs, attemptBody st a name payload = (st', evs, Except.ok BodyRes.success) ∧
      List.countP isPost evs = 1 ∧ List.countP isLogSuccess evs = 1 ∧
      List.countP isLogExc evs = 0 ∧ List.countP isLogExhausted evs = 0 ∧
      sleepsOf evs = [] := by
  obtain ⟨st1, nc, tok, hgt⟩ := get_token_good st a.now a.tokenResp hg
  refine ⟨st1, tokenEvs nc ++ [Ev.postReq name payload, Ev.logSuccess], ?_, ?_, ?_, ?_, ?_, ?_⟩
  · unfold attemptBody
    rw [hgt]
    dsimp only
    rw [hp]
    dsimp only
    rw [if_pos rfl]
  · simp [List.countP_append, countP_tokenEvs isPost rfl, isPost]
  · simp [List.countP_append, countP_tokenEvs isLogSuccess rfl, isLogSuccess]
  · simp [List.countP_append, countP_tokenEvs isLogExc rfl, isLogExc]
  · simp [List.countP_append, countP_tokenEvs isLogExhausted rfl, isLogExhausted]
  · rw [sleepsOf_append, sleepsOf_tokenEvs]
    rfl

/-- A `try` body whose token fetch works and whose POST returns a non-202
status without raising: one offer POST, a failure log, result `httpFail`. -/
lemma attemptBody_non202 (st : TMState) (a : Attempt) (name : String) (payload : Json)
    (hg : tokenRespOk a.tokenResp = true) (s : ℕ) (t : String)
    (hp : a.post = PostOutcome.resp s t) (hs : s ≠ 202) :
    ∃ st' evs, attemptBody st a name payload = (st', evs, Except.ok (BodyRes.httpFail s)) ∧
      List.countP isPost evs = 1 ∧ List.countP isLogSuccess evs = 0 ∧
      List.countP isLogExc evs = 0 ∧ List.countP isLogExhausted evs = 0 ∧
      sleepsOf evs = [] := by
  obtain ⟨st1, nc, tok, hgt⟩ := get_token_good st a.now a.tokenResp hg
  refine ⟨st1, tokenEvs nc ++ [Ev.postReq name payload, Ev.logFailStatus s], ?_, ?_, ?_, ?_, ?_, ?_⟩
  · unfold attemptBody
    rw [hgt]
    dsimp only
    rw [hp]
    dsimp only
    rw [if_neg hs]
  · simp [List.countP_append, countP_tokenEvs isPost rfl, isPost]
  · simp [List.countP_append, countP_tokenEvs isLogSuccess rfl, isLogSuccess]
  · simp [List.countP_append, countP_tokenEvs isLogExc rfl, isLogExc]
  · simp [List.countP_append, countP_tokenEvs isLogExhausted rfl, isLogExhausted]
  · rw [sleepsOf_append, sleepsOf_tokenEvs]
    rfl

/-- Unfolding of one loop iteration whose body raised: log, increment,
sleep when below the cap, continue. -/
lemma loopE_exc_step (env : Env) (name : String) (payload : Json)
    (st st' st2 : TMState) (r fuel : ℕ) (evs evs2 : List Ev) (o : JobOutcome) (m : String)
    (hB : attemptBody st (env r) name payload = (st', evs, Except.error m))
    (hrlt : r < maxRetries)
    (hL : loopE env name payload st' (r+1) fuel = Except.ok (st2, evs2, o)) :
    loopE env name payload st r (fuel+1) =
      Except.ok (st2,
        (evs ++ Ev.logExc :: (if r+1 < maxRetries then [Ev.sleep (2^(r+1))] else [])) ++ evs2,
        o) := by
  simp only [loopE]
  rw [if_pos hrlt, hB]
  dsimp only
  rw [hL]

/-- Unfolding of one loop iteration whose POST was accepted. -/
lemma loopE_202_step (env : Env) (name : String) (payload : Json)
    (st st' : TMState) (r fuel : ℕ) (evs : List Ev)
    (hB : attemptBody st (env r) name payload = (st', evs, Except.ok BodyRes.success))
    (hrlt : r < maxRetries) :
    loopE env name payload st r (fuel+1) =
      Except.ok (st', evs, JobOutcome.succeeded (r+1)) := by
  simp only [loopE]
  rw [if_pos hrlt, hB]

/-- Unfolding of one loop iteration whose POST returned a non-202 status:
the `break`. -/
lemma loopE_break_step (env : Env) (name : String) (payload : Json)
    (st st' : TMState) (r fuel : ℕ) (evs : List Ev) (s : ℕ)
    (hB : attemptBody st (env r) name payload = (st', evs, Except.ok (BodyRes.httpFail s)))
    (hrlt : r < maxRetries) :
    loopE env name payload st r (fuel+1) =
      Except.ok (st', evs, JobOutcome.brokeOut (r+1) s) := by
  simp only [loopE]
  rw [if_pos hrlt, hB]

/-- `create_offer` never propagates an exception and satisfies the loop
invariant instantiated at its entry point. -/
lemma createOfferE_spec (env : Env) (n : ℕ) (st : TMState) :
    ∃ st' evs o, createOfferE env n st = Except.ok (st', evs, o) ∧
      List.countP isPost evs ≤ maxRetries ∧
      (∀ nm pl, Ev.postReq nm pl ∈ evs →
        nm = offerName n ∧ pl = get_offer_payload (offerName n)) ∧
      (∀ k, o = JobOutcome.succeeded k → 0 < k ∧ k ≤ maxRetries ∧
        List.countP isLogSuccess evs = 1 ∧ List.countP isLogExhausted evs = 0) ∧
      (∀ k s, o = JobOutcome.brokeOut k s → 0 < k ∧ k ≤ maxRetries ∧
        List.countP isLogSuccess evs = 0 ∧ List.countP isLogExhausted evs = 0) ∧
      (o = JobOutcome.exhausted →
        List.countP isLogSuccess evs = 0 ∧ List.countP isLogExhausted evs = 1) := by
  have h := loopE_spec maxRetries env (offerName n) (get_offer_payload (offerName n)) st 0
    (by omega)
  simpa [createOfferE] using h

/-- The gather loop returns one result per job and never propagates. -/
lemma runAllE_ok (envs : ℕ → Env) : ∀ (k i : ℕ) (st : TMState),
    ∃ st' rs, runAllE envs st i k = Except.ok (st', rs) ∧ rs.length = k := by
  intro k
  induction k with
  | zero => exact fun i st => ⟨st, [], rfl, rfl⟩
  | succ k ih =>
    intro i st
    obtain ⟨st1, evs, o, hJ, _⟩ := createOfferE_spec (envs i) i st
    obtain ⟨st2, rs, hR, hlen⟩ := ih (i+1) st1
    refine ⟨st2, (evs, o) :: rs, ?_, by simp [hlen]⟩
    simp only [runAllE]
    rw [hJ]
    dsimp only
    rw [hR]

lemma parsePyInt_empty : parsePyInt "" = none := rfl

/-- C5: a cached token obtained from a valid token response with
`expires_in = T` is served from the cache with no network call whenever
`now < issueTime + T - 300`, and `get_token` issues a refresh network call
only when the line-21 validity check fails. -/
theorem C5_cache_hit (st0 : TMState) (t1 : ℤ) (resp : TokenResponse)
    (j : TokenJson) (tok : String) (T : ℤ)
    (h200 : resp.status = 200) (hj : resp.json = some j)
    (ht : j.access_token = some tok) (htok : tok ≠ "")
    (he : j.expires_in = some T)
    (hmiss : tokenValid st0 t1 = false) :
    get_token st0 t1 resp = ⟨⟨some tok, t1 + T⟩, 1, Except.ok tok⟩ ∧
    (∀ (now2 : ℤ) (resp2 : TokenResponse), now2 < t1 + T - 300 →
      get_token ⟨some tok, t1 + T⟩ now2 resp2 = ⟨⟨some tok, t1 + T⟩, 0, Except.ok tok⟩) ∧
    (∀ (st : TMState) (now : ℤ) (r2 : TokenResponse),
      0 < (get_token st now r2).networkCalls → tokenValid st now = false) := by
  refine ⟨?_, ?_, ?_⟩
  · unfold get_token
    rw [if_neg (by simp [hmiss]), tokenRespond_success st0 t1 resp j tok T h200 hj ht he]
  · intro now2 resp2 h2
    have hv : tokenValid ⟨some tok, t1 + T⟩ now2 = true := by
      unfold tokenValid
      dsimp only
      rw [Bool.and_eq_true]
      exact ⟨bne_iff_ne.mpr htok, decide_eq_true (by omega)⟩
    unfold get_token
    rw [if_pos hv]
    rfl
  · intro st now r2 hc
    cases hq : tokenValid st now
    · rfl
    · unfold get_token at hc
      rw [if_pos hq] at hc
      simp at hc

/-- Witness for C5 at a concrete refresh followed by a cache hit. -/
theorem C5_cache_hit_witness :
    get_token initTM 0 goodResp = ⟨⟨some "tok", 0 + 3600⟩, 1, Except.ok "tok"⟩ ∧
    get_token ⟨some "tok", 0 + 3600⟩ 100 goodResp =
      ⟨⟨some "tok", 0 + 3600⟩, 0, Except.ok "tok"⟩ := by
  have h := C5_cache_hit initTM 0 goodResp ⟨some "tok", some 3600⟩ "tok" 3600
    rfl rfl rfl (by decide) rfl (by decide)
  exact ⟨h.1, h.2.1 100 goodResp (by decide)⟩

/-- C2 counterexample: a 200 response whose body carries `access_token` but
no usable `expires_in` makes `get_token` fail after assigning
`self.access_token`, so the cached state is partially updated on a failure
— the token value changes while the expiry keeps its prior value. -/
theorem C2_partial_update_counterexample :
    (get_token initTM 1000 respPartial).result = Except.error "invalid expires_in" ∧
    (get_token initTM 1000 respPartial).st = ⟨some "tok", 0⟩ ∧
    (get_token initTM 1000 respPartial).st ≠ initTM ∧
    (get_token initTM 1000 respPartial).st.token_expires_at = initTM.token_expires_at := by
  exact ⟨rfl, rfl, by decide, rfl⟩

/-- C2 (amended): on a refresh, a fully well-formed 200 response replaces
token value and expiry together; a non-200 status, an undecodable body, or
a body without `access_token` fail leaving the prior state unchanged; but a
200 body with `access_token` and without a usable `expires_in` fails after
updating only the token value, keeping the old expiry — a partial update. -/
theorem C2_refresh_update (st : TMState) (now : ℤ) (resp : TokenResponse)
    (hmiss : tokenValid st now = false) :
    (∀ j t e, resp.status = 200 → resp.json = some j → j.access_token = some t →
      j.expires_in = some e →
      get_token st now resp = ⟨⟨some t, now + e⟩, 1, Except.ok t⟩) ∧
    (resp.status ≠ 200 → ∃ m, get_token st now resp = ⟨st, 1, Except.error m⟩) ∧
    (resp.status = 200 → resp.json = none →
      ∃ m, get_token st now resp = ⟨st, 1, Except.error m⟩) ∧
    (∀ j, resp.status = 200 → resp.json = some j → j.access_token = none →
      ∃ m, get_token st now resp = ⟨st, 1, Except.error m⟩) ∧
    (∀ j t, resp.status = 200 → resp.json = some j → j.access_token = some t →
      j.expires_in = none →
      get_token st now resp =
        ⟨⟨some t, st.token_expires_at⟩, 1, Except.error "invalid expires_in"⟩) := by
  have hneg : ¬ (tokenValid st now = true) := by simp [hmiss]
  refine ⟨?_, ?_, ?_, ?_, ?_⟩
  · intro j t e h200 hj ht he
    unfold get_token
    rw [if_neg hneg, tokenRespond_success st now resp j t e h200 hj ht he]
  · intro h200
    refine ⟨"Failed to get token. Status: " ++ toString resp.status ++
      ", Error: " ++ resp.text, ?_⟩
    unfold get_token
    rw [if_neg hneg]
    unfold tokenRespond
    rw [if_neg h200]
  · intro h200 hj
    refine ⟨"malformed response body", ?_⟩
    unfold get_token
    rw [if_neg hneg]
    unfold tokenRespond
    rw [if_pos h200, hj]
  · intro j h200 hj hat
    refine ⟨"KeyError: access_token", ?_⟩
    unfold get_token
    rw [if_neg hneg]
    unfold tokenRespond
    rw [if_pos h200, hj]
    dsimp only
    rw [hat]
  · intro j t h200 hj hat he
    unfold get_token
    rw [if_neg hneg]
    unfold tokenRespond
    rw [if_pos h200, hj]
    dsimp only
    rw [hat]
    dsimp only
    rw [he]

/-- Witness for the amended C2: a concrete full replacement and a concrete
partial update. -/
theorem C2_refresh_update_witness :
    get_token initTM 1000 goodResp = ⟨⟨some "tok", 1000 + 3600⟩, 1, Except.ok "tok"⟩ ∧
    get_token initTM 1000 respPartial =
      ⟨⟨some "tok", initTM.token_expires_at⟩, 1, Except.error "invalid expires_in"⟩ := by
  constructor
  · exact (C2_refresh_update initTM 1000 goodResp (by decide)).1
      ⟨some "tok", some 3600⟩ "tok" 3600 rfl rfl rfl rfl
  · exact (C2_refresh_update initTM 1000 respPartial (by decide)).2.2.2.2
      ⟨some "tok", none⟩ "tok" rfl rfl rfl rfl

/-- C3 counterexample: two concurrent first-time `get_token` callers whose
cache checks both run before either refresh response arrives (the
interleaving `asyncio` produces when both reach the awaited POST) issue two
token-endpoint exchange calls, not one — `get_token` has no refresh
coalescing. -/
theorem C3_dup_refresh_counterexample :
    (runSched 0 [goodResp, goodResp] sysTwoStart [0, 1, 0, 1]).netCalls = 2 ∧
    (runSched 0 [goodResp, goodResp] sysTwoStart [0, 1, 0, 1]).netCalls ≠ 1 := by
  exact ⟨rfl, by decide⟩

/-- C3 (amended): with no valid token cached, each concurrent `get_token`
caller that passes the line-21 check before any refresh completes issues
its own exchange call — two interleaved first-time callers make two calls,
each receiving the token of its own call; only a caller whose check runs after
another refresh has already cached a valid token is served without a
further call. -/
theorem C3_no_coalescing :
    (runSched 0 [goodResp, goodResp] sysTwoStart [0, 1, 0, 1]).netCalls = 2 ∧
    (runSched 0 [goodResp, goodResp] sysTwoStart [0, 1, 0, 1]).tasks =
      [TaskPhase.done (Except.ok "tok"), TaskPhase.done (Except.ok "tok")] ∧
    (runSched 0 [goodResp, goodResp] sysTwoStart [0, 0, 1]).netCalls = 1 ∧
    (runSched 0 [goodResp, goodResp] sysTwoStart [0, 0, 1]).tasks =
      [TaskPhase.done (Except.ok "tok"), TaskPhase.done (Except.ok "tok")] := by
  exact ⟨rfl, rfl, rfl, rfl⟩

/-- C1 counterexample: a job whose offer POST always returns HTTP 500
(without raising) makes exactly one attempt, breaks out of the loop with
`retry_count` unincremented, sleeps never, and does not terminate as
Exhausted — non-202 responses are not retried by the code. -/
theorem C1_no_retry_counterexample :
    runOutcome (createOfferE env500 0 initTM) = some (JobOutcome.brokeOut 1 500) ∧
    some (JobOutcome.brokeOut 1 500) ≠ some JobOutcome.exhausted ∧
    List.countP isPost (runEvents (createOfferE env500 0 initTM)) = 1 ∧
    sleepsOf (runEvents (createOfferE env500 0 initTM)) = [] ∧
    List.countP isLogExhausted (runEvents (createOfferE env500 0 initTM)) = 0 := by
  exact ⟨rfl, by decide, rfl, rfl, rfl⟩

/-- C1 (amended): only attempts that raise an exception (transport error,
token-fetch failure) increment the attempt counter; a job whose POST
always raises makes exactly `maxRetries` = 3 attempts, sleeps 2 s after
the first failure and 4 s after the second with no sleep after the final
one, and terminates as Exhausted with the exhaustion report.  A non-202
HTTP response instead ends the job after that single attempt, with no
backoff, no retry, and no exhaustion report. -/
theorem C1_retry_behaviour :
    (∀ (env : Env) (n : ℕ) (st : TMState),
      (∀ k, k < maxRetries → tokenRespOk (env k).tokenResp = true ∧
        ∃ m, (env k).post = PostOutcome.exc m) →
      ∃ st' evs, createOfferE env n st = Except.ok (st', evs, JobOutcome.exhausted) ∧
        List.countP isPost evs = maxRetries ∧
        List.countP isLogExc evs = maxRetries ∧
        sleepsOf evs = [2, 4] ∧
        List.countP isLogExhausted evs = 1) ∧
    (∀ (env : Env) (n : ℕ) (st : TMState) (s : ℕ) (t : String),
      tokenRespOk (env 0).tokenResp = true → (env 0).post = PostOutcome.resp s t →
      s ≠ 202 →
      ∃ st' evs, createOfferE env n st = Except.ok (st', evs, JobOutcome.brokeOut 1 s) ∧
        List.countP isPost evs = 1 ∧ sleepsOf evs = [] ∧
        List.countP isLogExhausted evs = 0 ∧ List.countP isLogSuccess evs = 0) := by
  constructor
  · intro env n st h
    obtain ⟨hg0, m0, hp0⟩ := h 0 (by decide)
    obtain ⟨hg1, m1, hp1⟩ := h 1 (by decide)
    obtain ⟨hg2, m2, hp2⟩ := h 2 (by decide)
    obtain ⟨st1, evs0, hB0, d01, d02, d03, d04, d05⟩ :=
      attemptBody_exc st (env 0) (offerName n) (get_offer_payload (offerName n)) hg0 m0 hp0
    obtain ⟨st2, evs1, hB1, d11, d12, d13, d14, d15⟩ :=
      attemptBody_exc st1 (env 1) (offerName n) (get_offer_payload (offerName n)) hg1 m1 hp1
    obtain ⟨st3, evs2, hB2, d21, d22, d23, d24, d25⟩ :=
      attemptBody_exc st2 (env 2) (offerName n) (get_offer_payload (offerName n)) hg2 m2 hp2
    have h3 : loopE env (offerName n) (get_offer_payload (offerName n)) st3 3 0 =
        Except.ok (st3, [Ev.logExhausted], JobOutcome.exhausted) := by
      simp [loopE, maxRetries]
    have h2 := loopE_exc_step env (offerName n) (get_offer_payload (offerName n))
      st2 st3 st3 2 0 evs2 [Ev.logExhausted] JobOutcome.exhausted m2 hB2 (by decide) h3
    rw [if_neg (by decide : ¬ (2+1 < maxRetries))] at h2
    have h1 := loopE_exc_step env (offerName n) (get_offer_payload (offerName n))
      st1 st2 st3 1 (0+1) evs1 ((evs2 ++ Ev.logExc :: []) ++ [Ev.logExhausted])
      JobOutcome.exhausted m1 hB1 (by decide) h2
    rw [if_pos (by decide : 1+1 < maxRetries)] at h1
    have h0 := loopE_exc_step env (offerName n) (get_offer_payload (offerName n))
      st st1 st3 0 ((0+1)+1) evs0
      ((evs1 ++ Ev.logExc :: [Ev.sleep (2^(1+1))]) ++ ((evs2 ++ Ev.logExc :: []) ++ [Ev.logExhausted]))
      JobOutcome.exhausted m0 hB0 (by decide) h1
    rw [if_pos (by decide : 0+1 < maxRetries)] at h0
    refine ⟨st3,
      evs0 ++ [Ev.logExc, Ev.sleep (2^(0+1))] ++
        (evs1 ++ [Ev.logExc, Ev.sleep (2^(1+1))] ++ (evs2 ++ [Ev.logExc] ++ [Ev.logExhausted])),
      ?_, ?_, ?_, ?_, ?_⟩
    · exact h0
    · simp [List.countP_append, List.countP_cons, d01, d11, d21, isPost, maxRetries]
    · simp [List.countP_append, List.countP_cons, d02, d12, d22, isLogExc, maxRetries]
    · simp only [sleepsOf_append, d05, d15, d25]
      rfl
    · simp [List.countP_append, List.countP_cons, d04, d14, d24, isLogExhausted]
  · intro env n st s t hg hp hs
    obtain ⟨st1, evs0, hB0, d1, d2, d3, d4, d5⟩ :=
      attemptBody_non202 st (env 0) (offerName n) (get_offer_payload (offerName n)) hg s t hp hs
    refine ⟨st1, evs0, ?_, d1, d5, d4, d2⟩
    show loopE env (offerName n) (get_offer_payload (offerName n)) st 0 maxRetries =
      Except.ok (st1, evs0, JobOutcome.brokeOut 1 s)
    exact loopE_break_step env (offerName n) (get_offer_payload (offerName n))
      st st1 0 2 evs0 s hB0 (by decide)

/-- Witness for the amended C1: an always-raising job exhausts in 3
attempts with 2 s and 4 s backoffs; an always-500 job stops at once. -/
theorem C1_retry_behaviour_witness :
    (∃ st' evs, createOfferE envExc 0 initTM = Except.ok (st', evs, JobOutcome.exhausted) ∧
      List.countP isPost evs = maxRetries ∧
      List.countP isLogExc evs = maxRetries ∧
      sleepsOf evs = [2, 4] ∧
      List.countP isLogExhausted evs = 1) ∧
    (∃ st' evs, createOfferE env500 5 initTM = Except.ok (st', evs, JobOutcome.brokeOut 1 500) ∧
      List.countP isPost evs = 1 ∧ sleepsOf evs = [] ∧
      List.countP isLogExhausted evs = 0 ∧ List.countP isLogSuccess evs = 0) := by
  constructor
  · exact C1_retry_behaviour.1 envExc 0 initTM
      (fun k hk => ⟨(by decide : tokenRespOk goodResp = true), "boom", rfl⟩)
  · exact C1_retry_behaviour.2 env500 5 initTM 500 "err" (by decide) rfl (by decide)

/-- C6 counterexample: when "fails" means a non-202 HTTP response, a job
whose POSTs would return 500, 500, 202 never reaches the third attempt —
the first non-202 response breaks the loop after one attempt, so the job
does not terminate Succeeded after 3 attempts. -/
theorem C6_fail_fail_ok_counterexample :
    runOutcome (createOfferE envFailFailOk 0 initTM) = some (JobOutcome.brokeOut 1 500) ∧
    some (JobOutcome.brokeOut 1 500) ≠ some (JobOutcome.succeeded 3) ∧
    List.countP isPost (runEvents (createOfferE envFailFailOk 0 initTM)) = 1 := by
  exact ⟨rfl, by decide, rfl⟩

/-- C6 (amended): a job whose creation call raises an exception on the
first two attempts and returns 202 on the third terminates Succeeded after
exactly 3 attempts with no further POSTs and no sleep after the success;
and an accepted (202) response on the first attempt returns success
immediately with a single POST and no backoff sleep. -/
theorem C6_accept_behaviour :
    (∀ (env : Env) (n : ℕ) (st : TMState) (m0 m1 t : String),
      (∀ k, k < maxRetries → tokenRespOk (env k).tokenResp = true) →
      (env 0).post = PostOutcome.exc m0 → (env 1).post = PostOutcome.exc m1 →
      (env 2).post = PostOutcome.resp 202 t →
      ∃ st' evs, createOfferE env n st = Except.ok (st', evs, JobOutcome.succeeded 3) ∧
        List.countP isPost evs = 3 ∧ sleepsOf evs = [2, 4] ∧
        List.countP isLogSuccess evs = 1) ∧
    (∀ (env : Env) (n : ℕ) (st : TMState) (t : String),
      tokenRespOk (env 0).tokenResp = true → (env 0).post = PostOutcome.resp 202 t →
      ∃ st' evs, createOfferE env n st = Except.ok (st', evs, JobOutcome.succeeded 1) ∧
        List.countP isPost evs = 1 ∧ sleepsOf evs = []) := by
  constructor
  · intro env n st m0 m1 t hg hp0 hp1 hp2
    obtain ⟨st1, evs0, hB0, d01, d02, d03, d04, d05⟩ :=
      attemptBody_exc st (env 0) (offerName n) (get_offer_payload (offerName n))
        (hg 0 (by decide)) m0 hp0
    obtain ⟨st2, evs1, hB1, d11, d12, d13, d14, d15⟩ :=
      attemptBody_exc st1 (env 1) (offerName n) (get_offer_payload (offerName n))
        (hg 1 (by decide)) m1 hp1
    obtain ⟨st3, evs2, hB2, d21, d22, d23, d24, d25⟩ :=
      attemptBody_202 st2 (env 2) (offerName n) (get_offer_payload (offerName n))
        (hg 2 (by decide)) t hp2
    have h2 : loopE env (offerName n) (get_offer_payload (offerName n)) st2 2 (0+1) =
        Except.ok (st3, evs2, JobOutcome.succeeded (2+1)) :=
      loopE_202_step env (offerName n) (get_offer_payload (offerName n))
        st2 st3 2 0 evs2 hB2 (by decide)
    have h1 := loopE_exc_step env (offerName n) (get_offer_payload (offerName n))
      st1 st2 st3 1 (0+1) evs1 evs2 (JobOutcome.succeeded (2+1)) m1 hB1 (by decide) h2
    rw [if_pos (by decide : 1+1 < maxRetries)] at h1
    have h0 := loopE_exc_step env (offerName n) (get_offer_payload (offerName n))
      st st1 st3 0 ((0+1)+1) evs0
      (evs1 ++ [Ev.logExc, Ev.sleep (2^(1+1))] ++ evs2)
      (JobOutcome.succeeded (2+1)) m0 hB0 (by decide) h1
    rw [if_pos (by decide : 0+1 < maxRetries)] at h0
    refine ⟨st3,
      evs0 ++ [Ev.logExc, Ev.sleep (2^(0+1))] ++
        (evs1 ++ [Ev.logExc, Ev.sleep (2^(1+1))] ++ evs2),
      ?_, ?_, ?_, ?_⟩
    · exact h0
    · simp [List.countP_append, List.countP_cons, d01, d11, d21, isPost]
    · simp only [sleepsOf_append, d05, d15, d25]
      rfl
    · simp [List.countP_append, List.countP_cons, d03, d13, d22, isLogSuccess]
  · intro env n st t hg hp
    obtain ⟨st1, evs0, hB0, d1, d2, d3, d4, d5⟩ :=
      attemptBody_202 st (env 0) (offerName n) (get_offer_payload (offerName n)) hg t hp
    refine ⟨st1, evs0, ?_, d1, d5⟩
    exact loopE_202_step env (offerName n) (get_offer_payload (offerName n))
      st st1 0 2 evs0 hB0 (by decide)

/-- Witness for the amended C6 at concrete environments. -/
theorem C6_accept_behaviour_witness :
    (∃ st' evs, createOfferE envExcExcOk 0 initTM =
        Except.ok (st', evs, JobOutcome.succeeded 3) ∧
      List.countP isPost evs = 3 ∧ sleepsOf evs = [2, 4] ∧
      List.countP isLogSuccess evs = 1) ∧
    (∃ st' evs, createOfferE envHit 2 cachedTM =
        Except.ok (st', evs, JobOutcome.succeeded 1) ∧
      List.countP isPost evs = 1 ∧ sleepsOf evs = []) := by
  constructor
  · exact C6_accept_behaviour.1 envExcExcOk 0 initTM "boom" "boom" ""
      (fun k hk => (by decide : tokenRespOk goodResp = true)) rfl rfl rfl
  · exact C6_accept_behaviour.2 envHit 2 cachedTM "" (by decide) rfl

/-- C4 counterexample: a job whose POST returns a non-202 status finishes
with neither a Succeeded nor an Exhausted report — the loop breaks with
`retry_count = 0 < max_retries`, so line 187 logs nothing and no success
was logged either; the claimed two-outcome dichotomy fails. -/
theorem C4_silent_outcome_counterexample :
    runOutcome (createOfferE env500 1 initTM) = some (JobOutcome.brokeOut 1 500) ∧
    List.countP isLogSuccess (runEvents (createOfferE env500 1 initTM)) = 0 ∧
    List.countP isLogExhausted (runEvents (createOfferE env500 1 initTM)) = 0 ∧
    some (JobOutcome.brokeOut 1 500) ≠ some JobOutcome.exhausted := by
  exact ⟨rfl, rfl, rfl, by decide⟩

/-- C4 (amended): every run of `create_offer` returns exactly one terminal
outcome after at most `maxRetries` attempts, but among three terminal
states, not two: Succeeded (reported by the success log), Exhausted
(reported by the exhaustion log), or a silent stop after a non-202
response, which is reported as neither; the dispatcher still collects one
result per job. -/
theorem C4_terminal_outcomes :
    (∀ (env : Env) (n : ℕ) (st : TMState),
      ∃ st' evs o, createOfferE env n st = Except.ok (st', evs, o) ∧
        List.countP isPost evs ≤ maxRetries ∧
        ((∃ k, 0 < k ∧ k ≤ maxRetries ∧ o = JobOutcome.succeeded k) ∨
         (∃ k s, 0 < k ∧ k ≤ maxRetries ∧ o = JobOutcome.brokeOut k s) ∨
         o = JobOutcome.exhausted) ∧
        (∀ k, o = JobOutcome.succeeded k →
          List.countP isLogSuccess evs = 1 ∧ List.countP isLogExhausted evs = 0) ∧
        (∀ k s, o = JobOutcome.brokeOut k s →
          List.countP isLogSuccess evs = 0 ∧ List.countP isLogExhausted evs = 0) ∧
        (o = JobOutcome.exhausted →
          List.countP isLogSuccess evs = 0 ∧ List.countP isLogExhausted evs = 1)) ∧
    (∀ (envs : ℕ → Env) (st : TMState) (N : ℕ),
      ∃ st' rs, runAllE envs st 0 N = Except.ok (st', rs) ∧ rs.length = N) := by
  constructor
  · intro env n st
    obtain ⟨st', evs, o, hrun, hcnt, _, hsucc, hbrk, hexh⟩ := createOfferE_spec env n st
    refine ⟨st', evs, o, hrun, hcnt, ?_, ?_, ?_, ?_⟩
    · rcases o with k | ⟨k, s⟩ | _
      · obtain ⟨h1, h2, _, _⟩ := hsucc k rfl
        exact Or.inl ⟨k, h1, h2, rfl⟩
      · obtain ⟨h1, h2, _, _⟩ := hbrk k s rfl
        exact Or.inr (Or.inl ⟨k, s, h1, h2, rfl⟩)
      · exact Or.inr (Or.inr rfl)
    · intro k hk
      obtain ⟨_, _, h3, h4⟩ := hsucc k hk
      exact ⟨h3, h4⟩
    · intro k s hk
      obtain ⟨_, _, h3, h4⟩ := hbrk k s hk
      exact ⟨h3, h4⟩
    · exact hexh
  · intro envs st N
    exact runAllE_ok envs N 0 st

/-- Witness for the amended C4 at a concrete job and a concrete fan-out. -/
theorem C4_terminal_outcomes_witness :
    (∃ st' evs o, createOfferE envHit 3 cachedTM = Except.ok (st', evs, o) ∧
      List.countP isPost evs ≤ maxRetries ∧
      ((∃ k, 0 < k ∧ k ≤ maxRetries ∧ o = JobOutcome.succeeded k) ∨
       (∃ k s, 0 < k ∧ k ≤ maxRetries ∧ o = JobOutcome.brokeOut k s) ∨
       o = JobOutcome.exhausted) ∧
      (∀ k, o = JobOutcome.succeeded k →
        List.countP isLogSuccess evs = 1 ∧ List.countP isLogExhausted evs = 0) ∧
      (∀ k s, o = JobOutcome.brokeOut k s →
        List.countP isLogSuccess evs = 0 ∧ List.countP isLogExhausted evs = 0) ∧
      (o = JobOutcome.exhausted →
        List.countP isLogSuccess evs = 0 ∧ List.countP isLogExhausted evs = 1)) ∧
    (∃ st' rs, runAllE (fun _ => envHit) cachedTM 0 4 = Except.ok (st', rs) ∧
      rs.length = 4) := by
  exact ⟨C4_terminal_outcomes.1 envHit 3 cachedTM,
    C4_terminal_outcomes.2 (fun _ => envHit) cachedTM 4⟩

/-- C7: the per-job `create_offer` never propagates an exception to the
dispatcher — every environment of token responses, transport errors and
HTTP statuses yields a normal return; and the whole `main` run can only
fail with the configuration-validation error, never with a per-job one. -/
theorem C7_error_containment :
    (∀ (env : Env) (n : ℕ) (st : TMState),
      ∃ st' evs o, createOfferE env n st = Except.ok (st', evs, o)) ∧
    (∀ (c : Config) (envs : ℕ → Env) (st : TMState) (e : String),
      main_run c envs st = Except.error e → main_validate c = Except.error e) := by
  constructor
  · intro env n st
    obtain ⟨st', evs, o, hrun, _⟩ := createOfferE_spec env n st
    exact ⟨st', evs, o, hrun⟩
  · intro c envs st e h
    unfold main_run at h
    rcases hv : main_validate c with e2 | nn
    · rw [hv] at h
      dsimp only at h
      injection h with h2
      exact congrArg Except.error h2
    · rw [hv] at h
      dsimp only at h
      obtain ⟨st2, rs, hR, _⟩ := runAllE_ok envs nn 0 st
      rw [hR] at h
      cases h

/-- Witness for C7 applied to a concrete invalid configuration. -/
theorem C7_error_containment_witness :
    main_validate ⟨none, none, none⟩ =
      Except.error "Missing required environment variables." := by
  exact C7_error_containment.2 ⟨none, none, none⟩ (fun _ => envHit) initTM
    "Missing required environment variables." rfl

/-- C8: startup validation accepts exactly the configurations with truthy
credentials and an offer count that `int(...)` parses to a positive value;
every other configuration fails with the validation error before the
network phase, which then never runs. -/
theorem C8_config_validation :
    (∀ c : Config,
      (∃ k, main_validate c = Except.ok k) ↔
        (truthyOpt c.ms_client_id = true ∧ truthyOpt c.ms_client_secret = true ∧
         ∃ s z, c.num_offers = some s ∧ parsePyInt s = some z ∧ 0 < z)) ∧
    (∀ (c : Config) (envs : ℕ → Env) (st : TMState) (e : String),
      main_validate c = Except.error e → main_run c envs st = Except.error e) := by
  constructor
  · intro c
    constructor
    · rintro ⟨k, hk⟩
      unfold main_validate at hk
      by_cases hA : (truthyOpt c.ms_client_id && truthyOpt c.ms_client_secret &&
          truthyOpt c.num_offers) = true
      · have hA2 := hA
        simp only [Bool.and_eq_true] at hA2
        rw [if_pos hA] at hk
        rcases hno : c.num_offers with _ | s
        · rw [hno] at hk
          cases hk
        · rw [hno] at hk
          dsimp only at hk
          rcases hp : parsePyInt s with _ | z
          · rw [hp] at hk
            cases hk
          · rw [hp] at hk
            dsimp only at hk
            by_cases hz : z ≤ 0
            · rw [if_pos hz] at hk
              cases hk
            · exact ⟨hA2.1.1, hA2.1.2, s, z, rfl, hp, by omega⟩
      · rw [if_neg hA] at hk
        cases hk
    · rintro ⟨h1, h2, s, z, hno, hp, hz⟩
      have hs : s ≠ "" := by
        intro he
        rw [he, parsePyInt_empty] at hp
        cases hp
      have htno : truthyOpt c.num_offers = true := by
        rw [hno]
        exact bne_iff_ne.mpr hs
      refine ⟨z.toNat, ?_⟩
      unfold main_validate
      rw [if_pos (by simp [h1, h2, htno])]
      rw [hno]
      dsimp only
      rw [hp]
      dsimp only
      rw [if_neg (by omega : ¬ z ≤ 0)]
  · intro c envs st e h
    unfold main_run
    rw [h]

/-- Witness for C8: plain, underscore-grouped (PEP 515) and Arabic-Indic
offer counts all pass validation, while a non-positive count is fatal
before the job phase. -/
theorem C8_config_validation_witness :
    (∃ k, main_validate ⟨some "id", some "secret", some "7"⟩ = Except.ok k) ∧
    (∃ k, main_validate ⟨some "id", some "secret", some "1_000"⟩ = Except.ok k) ∧
    (∃ k, main_validate ⟨some "id", some "secret", some "٣"⟩ = Except.ok k) ∧
    main_run ⟨some "id", some "secret", some "0"⟩ (fun _ => envHit) initTM =
      Except.error "NUM_OFFERS must be a positive number" := by
  refine ⟨?_, ?_, ?_, ?_⟩
  · exact (C8_config_validation.1 ⟨some "id", some "secret", some "7"⟩).mpr
      ⟨by decide, by decide, "7", 7, rfl, by decide, by decide⟩
  · exact (C8_config_validation.1 ⟨some "id", some "secret", some "1_000"⟩).mpr
      ⟨by decide, by decide, "1_000", 1000, rfl, by decide, by decide⟩
  · exact (C8_config_validation.1 ⟨some "id", some "secret", some "٣"⟩).mpr
      ⟨by decide, by decide, "٣", 3, rfl, by decide, by decide⟩
  · exact C8_config_validation.2 ⟨some "id", some "secret", some "0"⟩
      (fun _ => envHit) initTM "NUM_OFFERS must be a positive number" rfl

/-- C9: the payload builder is a pure function of the offer index — as a
method call it neither reads nor writes the object state, so two calls with
the same index, from any states and in any order, return identical
documents and leave the state untouched. -/
theorem C9_payload_pure (st st' : TMState) (i : ℕ) :
    buildPayload i = (get_offer_payloadM st (offerName i)).2 ∧
    (get_offer_payloadM st (offerName i)).2 = (get_offer_payloadM st' (offerName i)).2 ∧
    (get_offer_payloadM st (offerName i)).1 = st ∧
    (get_offer_payloadM (get_offer_payloadM st (offerName i)).1 (offerName i)).2 =
      (get_offer_payloadM st (offerName i)).2 := by
  exact ⟨rfl, rfl, rfl, rfl⟩

/-- C10: within one job, every offer POST of every retry attempt carries
exactly the offer name derived once at line 152 and the payload built once
at line 153 — no attempt recomputes or mutates them. -/
theorem C10_request_fixed (env : Env) (n : ℕ) (st st' : TMState)
    (evs : List Ev) (o : JobOutcome)
    (hrun : createOfferE env n st = Except.ok (st', evs, o)) :
    ∀ nm pl, Ev.postReq nm pl ∈ evs →
      nm = offerName n ∧ pl = get_offer_payload (offerName n) := by
  obtain ⟨st2, evs2, o2, h, _, hmem, _⟩ := createOfferE_spec env n st
  rw [hrun] at h
  have hh := Except.ok.inj h
  have hevs : evs = evs2 := congrArg (fun x => x.2.1) hh
  intro nm pl hm
  exact hmem nm pl (hevs ▸ hm)

/-- Witness for C10 on a concrete run whose trace contains an offer POST. -/
theorem C10_request_fixed_witness :
    offerName 7 = "dynamic_offer_1000_workers_7" ∧
    (offerName 7 = offerName 7 ∧
      get_offer_payload (offerName 7) = get_offer_payload (offerName 7)) := by
  constructor
  · rfl
  · exact C10_request_fixed envHit 7 cachedTM cachedTM
      [Ev.postReq (offerName 7) (get_offer_payload (offerName 7)), Ev.logSuccess]
      (JobOutcome.succeeded 1) rfl (offerName 7) (get_offer_payload (offerName 7))
      (List.Mem.head _)
